import Mathlib

/-!
# Verification of the SpeedW speed-warning pipeline

Shallow embedding of the computational core of `src/App.tsx`:
the scalar Kalman filter (`createKalmanFilter`), the unit conversion
(`convertToKmh`), the per-sample location callback of
`startLocationTracking` (filtering, calibration, rounding, display
update, rate-limited alert), and the display zero-floor (`displaySpeed`).

Real numbers of the source are modelled as rationals (`ℚ`); wall-clock
timestamps (`Date.now()` milliseconds) as integers (`ℤ`).  Fields that
may be absent in a sample (`location.coords.speed`,
`location.coords.accuracy`, `location.timestamp` — JS `undefined`) are
modelled as `Option`.
-/

namespace SpeedW

/-- `CALIBRATION = 1` from App.tsx line 21: a fixed +1 km/h offset added
after filtering. -/
def CALIBRATION : ℚ := 1

/-- State of the Kalman filter closure (`KalmanFilterState` in App.tsx):
measurement noise `R`, process noise `Q`, estimation error `P`, current
estimate `X`, Kalman gain `K`. -/
structure KalmanState where
  R : ℚ
  Q : ℚ
  P : ℚ
  X : ℚ
  K : ℚ
  deriving Repr, DecidableEq

/-- The initial filter state built by `createKalmanFilter`
(App.tsx lines 43–49): `R = 0.1, Q = 0.1, P = 1, X = 0, K = 0`. -/
def initKalman : KalmanState :=
  { R := 1/10, Q := 1/10, P := 1, X := 0, K := 0 }

/-- One call of the closure returned by `createKalmanFilter`
(App.tsx lines 51–61):
`P ← P + Q; K ← P / (P + R); X ← X + K * (m − X); P ← (1 − K) * P`.
The closure returns the updated `X`; callers of this embedding read the
`.X` field of the returned state. -/
def kalmanUpdate (s : KalmanState) (measurement : ℚ) : KalmanState :=
  let P1 := s.P + s.Q
  let K1 := P1 / (P1 + s.R)
  let X1 := s.X + K1 * (measurement - s.X)
  let P2 := (1 - K1) * P1
  { s with P := P2, X := X1, K := K1 }

/-- Feeding a list of measurements, in order, to a freshly created
filter. -/
def kalmanRun (ms : List ℚ) : KalmanState :=
  ms.foldl kalmanUpdate initKalman

/-- `convertToKmh` (App.tsx lines 65–67): `Math.max(0, speedInMs * 3.6)`;
`3.6 = 18/5`. -/
def convertToKmh (speedInMs : ℚ) : ℚ :=
  max 0 (speedInMs * (18/5))

/-- `parseFloat(x.toFixed(1))` (App.tsx line 96): rounding to one decimal
place.  For the non-negative values arising in this pipeline JS `toFixed`
rounds half up, which is Mathlib's `round`. -/
def round1 (x : ℚ) : ℚ :=
  (round (10 * x) : ℤ) / 10

/-- The value shown by `displaySpeed` (App.tsx lines 250–254): the stored
`currentSpeed` with values below 2 km/h floored to 0.  The final
`toFixed(1)` there is string formatting of an already one-decimal value,
so we model the displayed numeric value. -/
def displayValue (currentSpeed : ℚ) : ℚ :=
  if currentSpeed < 2 then 0 else currentSpeed

/-- One location observation as read by the watch callback
(App.tsx lines 92–101): `coords.speed`, `coords.accuracy` and
`timestamp`, each possibly absent. -/
structure Sample where
  speed : Option ℚ
  accuracy : Option ℚ
  timestamp : Option ℤ
  deriving Repr, DecidableEq

/-- `SpeedData` (App.tsx lines 25–29), as published by `setSpeedData`
(lines 98–102): `timestamp` is copied from the sample verbatim (no `?? 0`
in the source), so it stays an `Option`. -/
structure DisplayState where
  currentSpeed : ℚ
  accuracy : ℚ
  timestamp : Option ℤ
  deriving Repr, DecidableEq

/-- The mutable state threaded through the watch callback: the filter
closure's state and `lastSpeedWarning` (App.tsx line 77, initially 0). -/
structure TrackState where
  filter : KalmanState
  lastSpeedWarning : ℤ
  deriving Repr, DecidableEq

/-- Initial tracking state: fresh filter, `lastSpeedWarning = 0`. -/
def initTrack : TrackState :=
  { filter := initKalman, lastSpeedWarning := 0 }

/-- The speed limit: `some L` for a finite limit, `none` for the
`Infinity` sentinel selected by the OFF tile (App.tsx lines 330–336). -/
def Limit := Option ℚ

/-- `currentSpeed >= speedLimitRef.current` (App.tsx line 113).  With the
`Infinity` sentinel the comparison is false for every finite speed. -/
def meetsLimit (limit : Option ℚ) (currentSpeed : ℚ) : Bool :=
  match limit with
  | none => false
  | some L => decide (L ≤ currentSpeed)

/-- One invocation of the `watchPosition` success callback
(App.tsx lines 92–121) at wall-clock time `now` (`Date.now()`):
read the sample with `?? 0` defaults on speed and accuracy, convert,
filter, calibrate, round to one decimal, publish the display update, and
trigger the warning sound iff the rounded speed meets the limit and more
than 5000 ms have passed since `lastSpeedWarning` (which is then set to
`now`).  Returns (new state, published display update, alert fired?). -/
def processSample (limit : Option ℚ) (st : TrackState) (s : Sample)
    (now : ℤ) : TrackState × DisplayState × Bool :=
  let rawSpeed := s.speed.getD 0
  let speedInKmh := convertToKmh rawSpeed
  let f1 := kalmanUpdate st.filter speedInKmh
  let filteredSpeed := f1.X + CALIBRATION
  let currentSpeed := round1 filteredSpeed
  let display : DisplayState :=
    { currentSpeed := currentSpeed
      accuracy := s.accuracy.getD 0
      timestamp := s.timestamp }
  let alert := meetsLimit limit currentSpeed &&
    decide (5000 < now - st.lastSpeedWarning)
  let st' : TrackState :=
    { filter := f1
      lastSpeedWarning := if alert then now else st.lastSpeedWarning }
  (st', display, alert)

/-- Processing a finite stream of (sample, arrival time) pairs in order,
collecting the published display update and the alert decision of each
step. -/
def runTracking (limit : Option ℚ) :
    TrackState → List (Sample × ℤ) → List (DisplayState × Bool)
  | _, [] => []
  | st, (s, now) :: rest =>
    let r := processSample limit st s now
    (r.2.1, r.2.2) :: runTracking limit r.1 rest

/-! ## Basic unfolding lemmas for the filter update -/

theorem kalmanUpdate_K (st : KalmanState) (m : ℚ) :
    (kalmanUpdate st m).K = (st.P + st.Q) / (st.P + st.Q + st.R) := rfl

theorem kalmanUpdate_X (st : KalmanState) (m : ℚ) :
    (kalmanUpdate st m).X =
      st.X + (st.P + st.Q) / (st.P + st.Q + st.R) * (m - st.X) := rfl

theorem kalmanUpdate_P (st : KalmanState) (m : ℚ) :
    (kalmanUpdate st m).P =
      (1 - (st.P + st.Q) / (st.P + st.Q + st.R)) * (st.P + st.Q) := rfl

theorem kalmanUpdate_R (st : KalmanState) (m : ℚ) :
    (kalmanUpdate st m).R = st.R := rfl

theorem kalmanUpdate_Q (st : KalmanState) (m : ℚ) :
    (kalmanUpdate st m).Q = st.Q := rfl

/-! ## Invariants of the filter state

`GoodState` holds of the initial state and of every reachable state;
`TightState` holds of every state reached after at least one update. -/

/-- Reachable-state invariant: the noise constants keep their source
values, the error covariance is positive and at most `P0 + Q = 11/10`,
and the gain lies in `[0, 1]`. -/
def GoodState (st : KalmanState) : Prop :=
  st.R = 1/10 ∧ st.Q = 1/10 ∧ 0 < st.P ∧ st.P ≤ 11/10 ∧
    0 ≤ st.K ∧ st.K ≤ 1

/-- Post-update invariant: additionally `1/20 ≤ P < 1/10` and
`1/2 ≤ K`. -/
def TightState (st : KalmanState) : Prop :=
  GoodState st ∧ 1/20 ≤ st.P ∧ st.P < 1/10 ∧ 1/2 ≤ st.K

theorem kalmanUpdate_tight (st : KalmanState) (m : ℚ) (h : GoodState st) :
    TightState (kalmanUpdate st m) := by
  obtain ⟨hR, hQ, hP, -, -, -⟩ := h
  have hd : (0:ℚ) < st.P + 1/5 := by linarith
  have hK : (kalmanUpdate st m).K = (st.P + 1/10) / (st.P + 1/5) := by
    rw [kalmanUpdate_K, hR, hQ]; ring_nf
  have hK_lo : 1/2 ≤ (kalmanUpdate st m).K := by
    rw [hK, le_div_iff₀ hd]; linarith
  have hK_lt : (kalmanUpdate st m).K < 1 := by
    rw [hK, div_lt_one hd]; linarith
  have hPeq : (kalmanUpdate st m).P = (1/10) * (st.P + 1/10) / (st.P + 1/5) := by
    rw [kalmanUpdate_P, hR, hQ]
    field_simp
    ring
  have hP_lo : 1/20 ≤ (kalmanUpdate st m).P := by
    rw [hPeq, le_div_iff₀ hd]; linarith
  have hP_hi : (kalmanUpdate st m).P < 1/10 := by
    rw [hPeq, div_lt_iff₀ hd]; linarith
  exact ⟨⟨by rw [kalmanUpdate_R]; exact hR, by rw [kalmanUpdate_Q]; exact hQ,
    by linarith, by linarith, by linarith, by linarith⟩, hP_lo, hP_hi, hK_lo⟩

theorem TightState.good {st : KalmanState} (h : TightState st) :
    GoodState st := h.1

theorem initKalman_good : GoodState initKalman := by
  refine ⟨rfl, rfl, ?_, ?_, ?_, ?_⟩ <;> norm_num [initKalman]

theorem foldl_tight_of_tight (ms : List ℚ) :
    ∀ st : KalmanState, TightState st →
      TightState (List.foldl kalmanUpdate st ms) := by
  induction ms with
  | nil => intro st h; exact h
  | cons m rest ih =>
    intro st h
    exact ih (kalmanUpdate st m) (kalmanUpdate_tight st m h.good)

theorem foldl_good (ms : List ℚ) :
    ∀ st : KalmanState, GoodState st →
      GoodState (List.foldl kalmanUpdate st ms) := by
  induction ms with
  | nil => intro st h; exact h
  | cons m rest ih =>
    intro st h
    exact ih (kalmanUpdate st m) (kalmanUpdate_tight st m h).good

theorem foldl_tight (ms : List ℚ) (st : KalmanState) (hst : GoodState st)
    (hne : ms ≠ []) : TightState (List.foldl kalmanUpdate st ms) := by
  match ms with
  | [] => exact absurd rfl hne
  | m :: rest =>
    exact foldl_tight_of_tight rest (kalmanUpdate st m)
      (kalmanUpdate_tight st m hst)

theorem kalmanRun_good (ms : List ℚ) : GoodState (kalmanRun ms) :=
  foldl_good ms initKalman initKalman_good

theorem kalmanRun_tight (ms : List ℚ) (hne : ms ≠ []) :
    TightState (kalmanRun ms) :=
  foldl_tight ms initKalman initKalman_good hne

/-! ## Repeating a constant measurement -/

/-- The filter state after feeding the measurement `m` to a fresh filter
`n` times. -/
def constRun (m : ℚ) (n : ℕ) : KalmanState :=
  kalmanRun (List.replicate n m)

theorem constRun_succ (m : ℚ) (n : ℕ) :
    constRun m (n + 1) = kalmanUpdate (constRun m n) m := by
  unfold constRun kalmanRun
  rw [List.replicate_succ', List.foldl_append]
  rfl

theorem constRun_good (m : ℚ) (n : ℕ) : GoodState (constRun m n) :=
  kalmanRun_good _

theorem kalmanUpdate_X_sub (st : KalmanState) (m : ℚ) :
    (kalmanUpdate st m).X - m = (1 - (kalmanUpdate st m).K) * (st.X - m) := by
  rw [kalmanUpdate_X, kalmanUpdate_K]
  ring

/-- One update at least halves the distance between the estimate and the
measurement, from any reachable state. -/
theorem kalmanUpdate_abs_sub (st : KalmanState) (m : ℚ) (h : GoodState st) :
    |(kalmanUpdate st m).X - m| ≤ (1/2) * |st.X - m| := by
  have ht := kalmanUpdate_tight st m h
  obtain ⟨⟨-, -, -, -, -, hK1⟩, -, -, hKlo⟩ := ht
  rw [kalmanUpdate_X_sub, abs_mul,
    abs_of_nonneg (by linarith : (0:ℚ) ≤ 1 - (kalmanUpdate st m).K)]
  exact mul_le_mul_of_nonneg_right (by linarith) (abs_nonneg _)

/-- Geometric convergence of the estimate toward a constant
measurement. -/
theorem constRun_abs_le (m : ℚ) (n : ℕ) :
    |(constRun m n).X - m| ≤ |m| * (1/2)^n := by
  induction n with
  | zero =>
    have h0 : (constRun m 0).X = 0 := rfl
    rw [h0, zero_sub, abs_neg, pow_zero, mul_one]
  | succ n ih =>
    rw [constRun_succ]
    calc |(kalmanUpdate (constRun m n) m).X - m|
        ≤ (1/2) * |(constRun m n).X - m| :=
          kalmanUpdate_abs_sub _ _ (constRun_good m n)
      _ ≤ (1/2) * (|m| * (1/2)^n) := by
          have := mul_le_mul_of_nonneg_left ih (by norm_num : (0:ℚ) ≤ 1/2)
          linarith
      _ = |m| * (1/2)^(n+1) := by ring

/-! ## Claim theorems -/

/-- C1: the filter's update operation, applied to a measurement `m` with
prior state (estimate `X`, covariance `P`) and noise constants `Q`, `R`,
computes exactly: predicted covariance `P' = P + Q`, gain
`K = P' / (P' + R)`, new estimate `X + K * (m − X)`, new covariance
`(1 − K) * P'`; the noise constants are unchanged, the new estimate and
covariance become the new prior state (and the estimate is what the
closure returns), and the initial state is estimate 0, covariance 1,
gain 0. -/
theorem kalman_update_computes_spec_formulas (st : KalmanState) (m : ℚ) :
    (kalmanUpdate st m).K = (st.P + st.Q) / ((st.P + st.Q) + st.R) ∧
    (kalmanUpdate st m).X = st.X + (kalmanUpdate st m).K * (m - st.X) ∧
    (kalmanUpdate st m).P = (1 - (kalmanUpdate st m).K) * (st.P + st.Q) ∧
    (kalmanUpdate st m).R = st.R ∧ (kalmanUpdate st m).Q = st.Q ∧
    initKalman.X = 0 ∧ initKalman.P = 1 ∧ initKalman.K = 0 :=
  ⟨rfl, rfl, rfl, rfl, rfl, rfl, rfl, rfl⟩

/-- C2: for every finite sequence of non-negative measurements, the
stored error covariance after the run is strictly positive and at most
`P0 + Q = 11/10`, and the gain lies in `[0, 1]`.  Since every prefix of
a non-negative sequence is again such a sequence, instantiating this
theorem at each prefix bounds the state after every individual update,
including the very first. -/
theorem covariance_and_gain_bounds (ms : List ℚ)
    (_hnn : ∀ m ∈ ms, 0 ≤ m) :
    0 < (kalmanRun ms).P ∧ (kalmanRun ms).P ≤ 11/10 ∧
    0 ≤ (kalmanRun ms).K ∧ (kalmanRun ms).K ≤ 1 := by
  obtain ⟨-, -, h1, h2, h3, h4⟩ := kalmanRun_good ms
  exact ⟨h1, h2, h3, h4⟩

/-- Witness for C2 at the concrete measurement list `[3, 0, 7/2]`. -/
theorem covariance_and_gain_bounds_witness :
    (∀ m ∈ [(3:ℚ), 0, 7/2], 0 ≤ m) ∧
    (0 < (kalmanRun [(3:ℚ), 0, 7/2]).P ∧
     (kalmanRun [(3:ℚ), 0, 7/2]).P ≤ 11/10 ∧
     0 ≤ (kalmanRun [(3:ℚ), 0, 7/2]).K ∧
     (kalmanRun [(3:ℚ), 0, 7/2]).K ≤ 1) :=
  ⟨by norm_num, covariance_and_gain_bounds [(3:ℚ), 0, 7/2] (by norm_num)⟩

/-- C10: after at least one update — whatever the measurements — the
stored error covariance satisfies `1/20 ≤ P < 1/10` and the gain
satisfies `1/2 ≤ K`.  In particular the covariance never approaches 0. -/
theorem post_update_covariance_gain_tight_bounds (ms : List ℚ)
    (hne : ms ≠ []) :
    1/20 ≤ (kalmanRun ms).P ∧ (kalmanRun ms).P < 1/10 ∧
    1/2 ≤ (kalmanRun ms).K := by
  obtain ⟨-, h1, h2, h3⟩ := kalmanRun_tight ms hne
  exact ⟨h1, h2, h3⟩

/-- Witness for C10 at the concrete measurement list `[5]`. -/
theorem post_update_covariance_gain_tight_bounds_witness :
    ([(5:ℚ)] ≠ []) ∧
    (1/20 ≤ (kalmanRun [(5:ℚ)]).P ∧ (kalmanRun [(5:ℚ)]).P < 1/10 ∧
     1/2 ≤ (kalmanRun [(5:ℚ)]).K) :=
  ⟨by simp, post_update_covariance_gain_tight_bounds [(5:ℚ)] (by simp)⟩

/-- C5 counterexample: with the constant measurement 5 fed repeatedly,
the error covariance does **not** converge toward 0 — it stays at least
`1/20` after every update, so the claim's "error-covariance converges
toward 0" is false. -/
theorem covariance_does_not_tend_to_zero :
    ¬ (∀ ε : ℚ, 0 < ε → ∃ N : ℕ, ∀ n : ℕ, N ≤ n → (constRun 5 n).P < ε) := by
  intro h
  obtain ⟨N, hN⟩ := h (1/20) (by norm_num)
  have h1 := hN (N + 1) (Nat.le_succ N)
  have h2 := kalmanRun_tight (List.replicate (N + 1) 5)
    (by simp [List.replicate_succ])
  have h3 : 1/20 ≤ (constRun 5 (N + 1)).P := h2.2.1
  linarith

/-- C5 (amended): if the same measurement `m` is fed repeatedly, the
filtered output converges monotonically toward `m` — the distance to `m`
is non-increasing at every step (in fact at least halved, giving the
geometric bound `|Xₙ − m| ≤ |m| · (1/2)ⁿ`); but the error covariance does
not converge toward 0: it stays at least `1/20` after every update. -/
theorem constant_input_monotone_convergence (m : ℚ) (n : ℕ) :
    |(constRun m (n+1)).X - m| ≤ |(constRun m n).X - m| ∧
    |(constRun m (n+1)).X - m| ≤ (1/2) * |(constRun m n).X - m| ∧
    |(constRun m n).X - m| ≤ |m| * (1/2)^n ∧
    1/20 ≤ (constRun m (n+1)).P := by
  have hhalf : |(constRun m (n+1)).X - m| ≤ (1/2) * |(constRun m n).X - m| := by
    rw [constRun_succ]
    exact kalmanUpdate_abs_sub _ _ (constRun_good m n)
  refine ⟨?_, hhalf, constRun_abs_le m n, ?_⟩
  · have := abs_nonneg ((constRun m n).X - m)
    linarith
  · exact (kalmanRun_tight _ (by simp [List.replicate_succ])).2.1

/-! ## Pipeline helper lemmas -/

/-- The unrounded filtered-and-calibrated value the callback computes
for sample `s` from tracking state `st` (the `filteredSpeed` local,
App.tsx line 95). -/
def filteredSpeedOf (st : TrackState) (s : Sample) : ℚ :=
  (kalmanUpdate st.filter (convertToKmh (s.speed.getD 0))).X + CALIBRATION

/-- Rounding to one decimal cannot drop a value below an integer bound it
meets. -/
theorem intCast_le_round1 (k : ℤ) (x : ℚ) (h : (k:ℚ) ≤ x) :
    (k:ℚ) ≤ round1 x := by
  unfold round1
  rw [le_div_iff₀ (by norm_num : (0:ℚ) < 10)]
  have h10 : (10 * k : ℤ) ≤ round (10 * x) := by
    rw [round_eq, Int.le_floor]
    push_cast
    linarith
  calc (k:ℚ) * 10 = ((10 * k : ℤ) : ℚ) := by push_cast; ring
    _ ≤ (round (10 * x) : ℚ) := by exact_mod_cast h10

/-- `lastSpeedWarning` after a step: set to `now` exactly when the alert
fired, otherwise kept. -/
theorem processSample_lastWarning (limit : Option ℚ) (st : TrackState)
    (s : Sample) (now : ℤ) :
    (processSample limit st s now).1.lastSpeedWarning =
      if (processSample limit st s now).2.2 then now
      else st.lastSpeedWarning := rfl

/-- Every sample of the stream produces exactly one display update. -/
theorem runTracking_length (limit : Option ℚ) :
    ∀ (st : TrackState) (l : List (Sample × ℤ)),
      (runTracking limit st l).length = l.length := by
  intro st l
  induction l generalizing st with
  | nil => rfl
  | cons p rest ih =>
    obtain ⟨s, now⟩ := p
    simp [runTracking, ih]

/-- Zero raw speed keeps the filter estimate at zero; the helper behind
claim C9: from any state whose estimate is 0, every published speed is 1
(= `CALIBRATION`) and every displayed value is 0. -/
theorem runTracking_zero_speed (limit : Option ℚ) :
    ∀ (ts : List ℤ) (st : TrackState), st.filter.X = 0 →
      ((runTracking limit st (ts.map fun t => (⟨some 0, none, none⟩, t))).map
        fun d => d.1.currentSpeed) = List.replicate ts.length 1 ∧
      ((runTracking limit st (ts.map fun t => (⟨some 0, none, none⟩, t))).map
        fun d => displayValue d.1.currentSpeed) = List.replicate ts.length 0 := by
  intro ts
  induction ts with
  | nil => intro st hX; exact ⟨rfl, rfl⟩
  | cons t rest ih =>
    intro st hX
    have hconv : convertToKmh 0 = 0 := by simp [convertToKmh]
    have hX1 : (kalmanUpdate st.filter 0).X = 0 := by
      rw [kalmanUpdate_X, hX]; ring
    have hcs : round1 ((kalmanUpdate st.filter 0).X + CALIBRATION) = 1 := by
      rw [hX1]; norm_num [CALIBRATION, round1, round_eq]
    have hX1' : (processSample limit st ⟨some 0, none, none⟩ t).1.filter.X = 0 := by
      show (kalmanUpdate st.filter (convertToKmh ((0:ℚ)))).X = 0
      rw [hconv]; exact hX1
    have hih := ih (processSample limit st ⟨some 0, none, none⟩ t).1 hX1'
    refine ⟨?_, ?_⟩
    · simpa [runTracking, processSample, hconv, hcs, List.replicate_succ]
        using hih.1
    · have h2 : displayValue 1 = 0 := by norm_num [displayValue]
      simpa [runTracking, processSample, hconv, hcs, h2, List.replicate_succ]
        using hih.2

/-- C3 counterexample: raw speed 30 m/s with Limit 60; the first sample
(at t = 1000000 ms) alerts and records the time; the second sample
arrives exactly 5000 ms later, its speed (105.9) still meets the limit
and the limit is not the sentinel, so by the claim ("at least 5 seconds
of wall-clock time have elapsed") it should alert — but the source
requires strictly more than 5000 ms (`now - last > 5000`), so no second
alert fires. -/
theorem alert_skipped_at_exact_cooldown :
    (runTracking (some 60) initTrack
        [(⟨some 30, none, none⟩, 1000000), (⟨some 30, none, none⟩, 1005000)]).map
        Prod.snd = [true, false] ∧
    (1005000 - 1000000 : ℤ) = 5000 ∧
    (60:ℚ) ≤ ((runTracking (some 60) initTrack
        [(⟨some 30, none, none⟩, 1000000), (⟨some 30, none, none⟩, 1005000)]).map
        (fun d => d.1.currentSpeed)).getD 1 0 := by
  refine ⟨?_, by norm_num, ?_⟩ <;>
    norm_num [runTracking, processSample, kalmanUpdate, convertToKmh, initTrack,
      initKalman, CALIBRATION, meetsLimit, round1, round_eq, List.getD]

/-- C3 (amended): an alert is triggered on a sample exactly when the
published (rounded) filtered-and-calibrated speed meets or exceeds the
current Limit, the Limit is not the "no limit" sentinel, and **strictly
more than** 5000 ms of wall-clock time have elapsed since the last
alert; an alert records its trigger time (so consecutive alerts are more
than 5000 ms apart); and in the scenario of raw speed 30 m/s (= 108 km/h)
with Limit 60 and two samples 1 second apart, exactly one alert fires. -/
theorem alert_iff_strict_cooldown (limit : Option ℚ) (st : TrackState)
    (s : Sample) (now : ℤ) :
    ((processSample limit st s now).2.2 = true ↔
      ((∃ L, limit = some L ∧
          L ≤ (processSample limit st s now).2.1.currentSpeed) ∧
        5000 < now - st.lastSpeedWarning)) ∧
    ((processSample limit st s now).2.2 = true →
      (processSample limit st s now).1.lastSpeedWarning = now) ∧
    (runTracking (some 60) initTrack
        [(⟨some 30, none, none⟩, 1000000), (⟨some 30, none, none⟩, 1001000)]).map
        Prod.snd = [true, false] := by
  refine ⟨?_, ?_, ?_⟩
  · cases limit with
    | none => simp [processSample, meetsLimit]
    | some L => simp [processSample, meetsLimit]
  · intro h
    rw [processSample_lastWarning, h]
    rfl
  · norm_num [runTracking, processSample, kalmanUpdate, convertToKmh, initTrack,
      initKalman, CALIBRATION, meetsLimit, round1, round_eq]

/-- Witness for C3 (amended): the first alert of the scenario records its
trigger time. -/
theorem alert_iff_strict_cooldown_witness :
    (processSample (some 60) initTrack ⟨some 30, none, none⟩
      1000000).1.lastSpeedWarning = 1000000 :=
  (alert_iff_strict_cooldown (some 60) initTrack ⟨some 30, none, none⟩
      1000000).2.1
    (by norm_num [processSample, kalmanUpdate, convertToKmh, initTrack,
      initKalman, CALIBRATION, meetsLimit, round1, round_eq])

/-- C4: with the "no limit" sentinel (`Infinity`, modelled as `none`) no
alert is ever triggered, for any sequence of samples and arrival times
and from any tracking state, regardless of cool-down timing. -/
theorem sentinel_limit_never_alerts (st : TrackState)
    (l : List (Sample × ℤ)) :
    (runTracking none st l).map Prod.snd = List.replicate l.length false := by
  induction l generalizing st with
  | nil => rfl
  | cons p rest ih =>
    obtain ⟨s, now⟩ := p
    simp [runTracking, processSample, meetsLimit, List.replicate_succ, ih]

/-- C6 counterexample: for a sample missing all optional fields, the
published display update leaves the timestamp absent (`none`) instead of
substituting zero — `setSpeedData` copies `location.timestamp` without a
`?? 0` default — while accuracy *is* zero-substituted and the update is
still produced (with speed 1 from the zero-defaulted raw speed). -/
theorem missing_timestamp_not_zeroed :
    (processSample (some 60) initTrack ⟨none, none, none⟩
        1000000).2.1.timestamp ≠ some 0 ∧
    (processSample (some 60) initTrack ⟨none, none, none⟩
        1000000).2.1.accuracy = 0 ∧
    (processSample (some 60) initTrack ⟨none, none, none⟩
        1000000).2.1.currentSpeed = 1 := by
  refine ⟨by simp [processSample], rfl, ?_⟩
  norm_num [processSample, kalmanUpdate, convertToKmh, initTrack, initKalman,
    CALIBRATION, round1, round_eq]

/-- C6 (amended): a missing accuracy field is substituted with zero and a
missing speed field with zero raw speed; the timestamp is copied into the
display update verbatim (absent stays absent); and every sample of the
stream — partial or not — produces exactly one display update, so a
partial sample never interrupts processing. -/
theorem sample_field_defaults (limit : Option ℚ) (st : TrackState)
    (s : Sample) (now : ℤ) (l : List (Sample × ℤ)) :
    (processSample limit st s now).2.1.accuracy = s.accuracy.getD 0 ∧
    (processSample limit st s now).2.1.timestamp = s.timestamp ∧
    (processSample limit st s now).2.1.currentSpeed =
      round1 ((kalmanUpdate st.filter
        (convertToKmh (s.speed.getD 0))).X + CALIBRATION) ∧
    (runTracking limit st l).length = l.length :=
  ⟨rfl, rfl, rfl, runTracking_length limit st l⟩

/-- C7 counterexample: with raw speed 268/15 m/s the filtered+calibrated
value is 59.96, strictly below the limit 60 — yet the alert fires,
because the source compares the value rounded to one decimal
(`parseFloat(filteredSpeed.toFixed(1))` = 60.0).  Rounding therefore does
**not** apply to the displayed value only, contradicting the claim. -/
theorem alert_compares_rounded_value :
    (processSample (some 60) initTrack ⟨some (268/15), none, none⟩
        1000000).2.2 = true ∧
    filteredSpeedOf initTrack ⟨some (268/15), none, none⟩ = 1499/25 ∧
    (1499/25 : ℚ) < 60 := by
  refine ⟨?_, ?_, by norm_num⟩
  · norm_num [processSample, kalmanUpdate, convertToKmh, initTrack, initKalman,
      CALIBRATION, meetsLimit, round1, round_eq]
  · norm_num [filteredSpeedOf, kalmanUpdate, convertToKmh, initTrack,
      initKalman, CALIBRATION]

/-- C7 (amended): only the below-2-km/h zero-floor is display-only; the
one-decimal rounding applies to the published value and to the value
compared against the Limit alike.  The compared value is the **rounded**
filtered+calibrated value, never zero-floored; and since the selectable
limits are integers, a sample whose unrounded filtered+calibrated value
is at least the limit still triggers the alerting condition (rounding to
one decimal cannot drop below an integer bound), even when a value below
2 km/h is displayed as exactly zero. -/
theorem rounding_and_floor_stages (st : TrackState) (s : Sample) (now : ℤ)
    (k : ℤ) :
    (processSample (some (k:ℚ)) st s now).2.1.currentSpeed =
      round1 (filteredSpeedOf st s) ∧
    (processSample (some (k:ℚ)) st s now).2.2 =
      (decide ((k:ℚ) ≤ round1 (filteredSpeedOf st s)) &&
        decide (5000 < now - st.lastSpeedWarning)) ∧
    displayValue (round1 (filteredSpeedOf st s)) =
      (if round1 (filteredSpeedOf st s) < 2 then 0
       else round1 (filteredSpeedOf st s)) ∧
    ((k:ℚ) ≤ filteredSpeedOf st s →
      (k:ℚ) ≤ round1 (filteredSpeedOf st s)) :=
  ⟨rfl, rfl, rfl, intCast_le_round1 k (filteredSpeedOf st s)⟩

/-- Witness for C7 (amended) at the concrete sample with raw speed
268/15 m/s (filtered+calibrated value 59.96) and integer limit 59. -/
theorem rounding_and_floor_stages_witness :
    ((59:ℤ):ℚ) ≤ round1 (filteredSpeedOf initTrack ⟨some (268/15), none, none⟩) :=
  (rounding_and_floor_stages initTrack ⟨some (268/15), none, none⟩
      1000000 59).2.2.2
    (by norm_num [filteredSpeedOf, kalmanUpdate, convertToKmh, initTrack,
      initKalman, CALIBRATION])

/-- C9: feeding repeated samples of raw speed 0 m/s (at arbitrary arrival
times, under any limit), every published current-speed value equals
exactly the calibration constant rounded to one decimal — which is 1 —
and every displayed value is floored to 0, being below the 2 km/h
display threshold. -/
theorem zero_speed_output_is_calibration (ts : List ℤ) (limit : Option ℚ) :
    round1 CALIBRATION = 1 ∧
    ((runTracking limit initTrack
        (ts.map fun t => (⟨some 0, none, none⟩, t))).map
      fun d => d.1.currentSpeed) = List.replicate ts.length 1 ∧
    ((runTracking limit initTrack
        (ts.map fun t => (⟨some 0, none, none⟩, t))).map
      fun d => displayValue d.1.currentSpeed) = List.replicate ts.length 0 := by
  have h := runTracking_zero_speed limit ts initTrack rfl
  exact ⟨by norm_num [CALIBRATION, round1, round_eq], h.1, h.2⟩

/-- C8: `convertToKmh` maps every raw speed `s` to `max 0 s * 3.6`
(clamping a negative raw speed to zero is the same as clamping the
product, since 3.6 > 0), so the converted value entering the filter is
always non-negative. -/
theorem convertToKmh_clamps_then_scales (s : ℚ) :
    convertToKmh s = max 0 s * (18/5) ∧ 0 ≤ convertToKmh s := by
  constructor
  · unfold convertToKmh
    rcases le_total s 0 with h | h
    · rw [max_eq_left (by nlinarith : s * (18/5) ≤ 0), max_eq_left h,
        zero_mul]
    · rw [max_eq_right (by nlinarith : (0:ℚ) ≤ s * (18/5)), max_eq_right h]
  · exact le_max_left 0 _

end SpeedW
